import Mathlib

/-!
Shallow embedding of the radiant-rs rendering core
(src/graphics/layer.rs, src/graphics/sprite.rs, src/core/font.rs).

External collaborator types (color representation, matrix math, blend
modes, GPU textures, the rusttype font engine) are modelled opaquely or
as plain records of rational-valued data; `f32` values are modelled as
rationals, `u32`/`usize` as naturals.
-/

namespace Radiant

/-- Collaborator: 4-component color (external `color.rs`, opaque payload). -/
structure Color where
  r : ℚ
  g : ℚ
  b : ℚ
  a : ℚ
deriving DecidableEq, Repr

/-- Collaborator: 4x4 matrix (external `maths`), modelled as an opaque payload. -/
abbrev Mat4 := List ℚ

/-- Collaborator: blend mode (external `graphics::blendmodes`), opaque payload. -/
abbrev BlendMode := Nat

/-- Vertex record, as written by `Layer::sprite` in src/graphics/layer.rs. -/
structure Vertex where
  position : ℚ × ℚ
  offset : ℚ × ℚ
  rotation : ℚ
  bucket_id : Nat
  texture_id : Nat
  color : Color
  texture_uv : ℚ × ℚ
deriving DecidableEq, Repr

/-- Sprite metadata, from `struct Sprite` in src/graphics/sprite.rs. -/
structure Sprite where
  anchor_x : ℚ
  anchor_y : ℚ
  width : ℚ
  height : ℚ
  frames : Nat
  bucket_id : Nat
  texture_id : Nat
  u_max : ℚ
  v_max : ℚ
  loaded : Bool
deriving DecidableEq, Repr

/-- Embeds `Sprite::texture_id` (src/graphics/sprite.rs line 109):
`self.texture_id + (frame_id % self.frames)`. -/
def Sprite.textureId (s : Sprite) (frame_id : Nat) : Nat :=
  s.texture_id + frame_id % s.frames

/-- Layer state, from `struct Layer` (fields per src/graphics/layer.rs);
the mutex wrappers and the atomic counter are modelled by plain fields,
the `AVec` vertex buffer by a list. -/
structure Layer where
  view_matrix : Mat4
  model_matrix : Mat4
  blend : BlendMode
  color : Color
  gid : Nat
  lid : Nat
  vertex_data : List Vertex
deriving DecidableEq, Repr

/-- Embeds `Layer::set_color` (src/graphics/layer.rs line 35): stores the color; does not touch `lid`. -/
def Layer.setColor (l : Layer) (c : Color) : Layer :=
  { l with color := c }

/-- Embeds `Layer::set_view_matrix` (line 46): stores the matrix; does not touch `lid`. -/
def Layer.setViewMatrix (l : Layer) (m : Mat4) : Layer :=
  { l with view_matrix := m }

/-- Embeds `Layer::set_model_matrix` (line 57): stores the matrix; does not touch `lid`. -/
def Layer.setModelMatrix (l : Layer) (m : Mat4) : Layer :=
  { l with model_matrix := m }

/-- Embeds `Layer::set_blendmode` (line 68): stores the blend mode; does not touch `lid`. -/
def Layer.setBlendmode (l : Layer) (b : BlendMode) : Layer :=
  { l with blend := b }

/-- Read-only accessor `Layer::color` (line 41): returns the color field. -/
def Layer.getColor (l : Layer) : Color := l.color

/-- Read-only accessor `Layer::view_matrix` (line 52). -/
def Layer.getViewMatrix (l : Layer) : Mat4 := l.view_matrix

/-- Read-only accessor `Layer::blendmode` (line 74). -/
def Layer.getBlendmode (l : Layer) : BlendMode := l.blend

/-- Embeds `Layer::sprite` (src/graphics/layer.rs lines 79-150): bumps `lid`,
computes anchor-relative corner offsets and appends 4 vertices
(top-left, top-right, bottom-left, bottom-right). -/
def Layer.sprite (l : Layer) (s : Sprite) (frame_id x y : Nat) (color : Color)
    (rotation scale_x scale_y : ℚ) : Layer :=
  let texture_id := s.textureId frame_id
  let bucket_id := s.bucket_id
  let xq : ℚ := (x : ℚ)
  let yq : ℚ := (y : ℚ)
  let anchor_x := s.anchor_x * s.width
  let anchor_y := s.anchor_y * s.height
  let offset_x0 := -anchor_x * scale_x
  let offset_x1 := (s.width - anchor_x) * scale_x
  let offset_y0 := -anchor_y * scale_y
  let offset_y1 := (s.height - anchor_y) * scale_y
  let v0 : Vertex :=
    ⟨(xq, yq), (offset_x0, offset_y0), rotation, bucket_id, texture_id, color, (0, 0)⟩
  let v1 : Vertex :=
    ⟨(xq, yq), (offset_x1, offset_y0), rotation, bucket_id, texture_id, color, (s.u_max, 0)⟩
  let v2 : Vertex :=
    ⟨(xq, yq), (offset_x0, offset_y1), rotation, bucket_id, texture_id, color, (0, s.v_max)⟩
  let v3 : Vertex :=
    ⟨(xq, yq), (offset_x1, offset_y1), rotation, bucket_id, texture_id, color, (s.u_max, s.v_max)⟩
  { l with
    lid := l.lid + 1
    vertex_data := l.vertex_data ++ [v0, v1, v2, v3] }

/-- Embeds `Layer::reset` (src/graphics/layer.rs lines 159-165): bumps `lid`, clears the buffer. -/
def Layer.reset (l : Layer) : Layer :=
  { l with lid := l.lid + 1, vertex_data := [] }

/-! ### FontCache (src/core/font.rs lines 36-107)

The glium texture collaborator is modelled as a pixel map `ℕ × ℕ → ℕ`
(byte value at column/row); `rusttype::Rect<u32>` as a min/max record.
-/

/-- Embeds `rusttype::Rect<u32>`: min and max corner points. -/
structure URect where
  minX : Nat
  minY : Nat
  maxX : Nat
  maxY : Nat
deriving DecidableEq, Repr

/-- Embeds `Rect::width()` = `max.x - min.x`. -/
def URect.w (r : URect) : Nat := r.maxX - r.minX

/-- Embeds `Rect::height()` = `max.y - min.y`. -/
def URect.h (r : URect) : Nat := r.maxY - r.minY

/-- Collaborator: a glium 2D texture, as a map from (x, y) to byte value. -/
def Texture := Nat → Nat → Nat

/-- Embeds the call `texture.main_level().write(..)` on a glium rect of left/bottom/width/height
(src/core/font.rs lines 76-89): writes `data` row-major into the rectangle whose
origin is the rect's min corner and whose extent is the rect's width/height. -/
def writeRect (tex : Texture) (rect : URect) (data : List Nat) : Texture :=
  fun px py =>
    if rect.minX ≤ px ∧ px < rect.minX + rect.w ∧ rect.minY ≤ py ∧ py < rect.minY + rect.h then
      data.getD ((py - rect.minY) * rect.w + (px - rect.minX)) (tex px py)
    else
      tex px py

/-- Mutable state of `FontCache` (src/core/font.rs lines 36-40): the pending
upload queue and the dirty flag (the rusttype gpu cache itself is an external
collaborator). -/
structure FontCacheState where
  queue : List (URect × List Nat)
  dirty : Bool
deriving DecidableEq, Repr

/-- Embeds `FontCache::update` (src/core/font.rs lines 71-94): if dirty, writes every
queued (rect, data) pair into the texture, then clears the queue and the dirty
flag; otherwise does nothing. Returns the new cache state and texture. -/
def FontCache.update (st : FontCacheState) (tex : Texture) : FontCacheState × Texture :=
  if st.dirty then
    ({ queue := [], dirty := false },
     st.queue.foldl (fun t p => writeRect t p.1 p.2) tex)
  else
    (st, tex)

/-! ### Font (src/core/font.rs lines 120-187) -/

/-- Collaborator: the shared render context handle, opaque. -/
abbrev RenderContext := Nat

/-- Embeds `struct Font` (src/core/font.rs lines 120-127). -/
structure Font where
  data : List Nat
  font_id : Nat
  size : ℚ
  color : Color
  context : RenderContext
deriving DecidableEq, Repr

/-- Embeds `Font::with_size` (src/core/font.rs lines 156-160): clones, sets `size`. -/
def Font.withSize (f : Font) (size : ℚ) : Font :=
  { f with size := size }

/-- Embeds `Font::with_color` (src/core/font.rs lines 163-167): clones, sets `color`. -/
def Font.withColor (f : Font) (color : Color) : Font :=
  { f with color := color }

/-! ### Paragraph layout (src/core/font.rs lines 244-290)

The rusttype font collaborator is modelled as a record of metric functions,
each taking the uniform scale as its first argument; a positioned glyph is the
glyph id together with its position. `pixel_bounding_box` of a positioned
glyph is integer-valued in rusttype (`Rect<i32>`), so the model returns an
integer rectangle; it depends on the glyph and its position.
-/

/-- Embeds `Rect<i32>`: pixel bounding box of a positioned glyph. -/
structure IRect where
  minX : ℤ
  minY : ℤ
  maxX : ℤ
  maxY : ℤ
deriving DecidableEq, Repr

/-- Collaborator: rusttype font interface, scale passed explicitly (mirrors
`v_metrics(scale)`, `glyph(c)`, `pair_kerning(scale, a, b)`, scaled glyph
`h_metrics().advance_width`, and positioned-glyph `pixel_bounding_box()`). -/
structure RTFont where
  vAscent : ℚ → ℚ
  vDescent : ℚ → ℚ
  vLineGap : ℚ → ℚ
  glyph : Char → Option Nat
  pairKerning : ℚ → Nat → Nat → ℚ
  advanceWidth : ℚ → Nat → ℚ
  pixelBB : ℚ → Nat → ℚ → ℚ → Option IRect

/-- Embeds `v_metrics.ascent - v_metrics.descent + v_metrics.line_gap` (line 249). -/
def advanceHeight (font : RTFont) (scale : ℚ) : ℚ :=
  font.vAscent scale - font.vDescent scale + font.vLineGap scale

/-- Rust's `char::is_control`: the Unicode Cc category (C0 controls, DEL, C1 controls). -/
def isControlChar (c : Char) : Bool :=
  c.val ≤ 0x1f || (0x7f ≤ c.val && c.val ≤ 0x9f)

/-- Rust `width as i32` for an `f32` value: truncation toward zero. -/
def truncQ (q : ℚ) : ℤ := Int.tdiv q.num q.den

/-- A positioned glyph: glyph id and position (from `positioned(caret)`). -/
structure PosGlyph where
  gid : Nat
  x : ℚ
  y : ℚ
deriving DecidableEq, Repr

/-- The loop state of `layout_paragraph`: caret, kerning predecessor, output. -/
structure LayoutState where
  caret : ℚ × ℚ
  lastGlyphId : Option Nat
  result : List PosGlyph
deriving DecidableEq, Repr

/-- Caret x after the kerning adjustment of lines 271-273: if a previous glyph
exists, add `pair_kerning(scale, last, g)` to `caret.x`. -/
def kernedX (font : RTFont) (scale : ℚ) (st : LayoutState) (g : Nat) : ℚ :=
  match st.lastGlyphId with
  | some id => st.caret.1 + font.pairKerning scale id g
  | none => st.caret.1

/-- One iteration of the `for c in text.nfc()` loop of `layout_paragraph`
(src/core/font.rs lines 253-288). -/
def layoutStep (font : RTFont) (scale width : ℚ) (st : LayoutState) (c : Char) :
    LayoutState :=
  if isControlChar c then
    if c = '\r' then
      { st with caret := (0, st.caret.2 + advanceHeight font scale) }
    else
      st
  else
    match font.glyph c with
    | none => st
    | some g =>
      let kx := kernedX font scale st g
      let needWrap :=
        match font.pixelBB scale g kx st.caret.2 with
        | some bb => decide ((0 : ℚ) < width) && decide (truncQ width < bb.maxX)
        | none => false
      if needWrap then
        let ny := st.caret.2 + advanceHeight font scale
        { caret := (0 + font.advanceWidth scale g, ny),
          lastGlyphId := none,
          result := st.result ++ [⟨g, 0, ny⟩] }
      else
        { caret := (kx + font.advanceWidth scale g, st.caret.2),
          lastGlyphId := some g,
          result := st.result ++ [⟨g, kx, st.caret.2⟩] }

/-- Embeds `layout_paragraph` (src/core/font.rs lines 244-290): folds the loop body
over the (already NFC-normalized) character sequence, starting with the caret
at `(0, ascent)` and no kerning predecessor. -/
def layout_paragraph (font : RTFont) (scale width : ℚ) (text : List Char) :
    List PosGlyph :=
  (text.foldl (layoutStep font scale width)
    { caret := (0, font.vAscent scale), lastGlyphId := none, result := [] }).result

/-! ### Spritesheet loading (src/graphics/sprite.rs lines 166-228)

The regex capture of `_(\d+)x(\d+)x(\d+)\.` over the filename is an external
collaborator (regex crate); its result is passed in as
`Option (frame_width, frame_height, frame_count)`. A failed `assert!` is
modelled as `Except.error`.
-/

/-- Embeds `enum SpriteLayout` (src/graphics/sprite.rs lines 23-27). -/
inductive SpriteLayout where
  | VERTICAL
  | HORIZONTAL
deriving DecidableEq, Repr

/-- Embeds `struct FrameParameters` (src/graphics/sprite.rs line 29). -/
structure FrameParameters where
  width : Nat
  height : Nat
  count : Nat
  layout : SpriteLayout
deriving DecidableEq, Repr

/-- Embeds `parse_parameters` (src/graphics/sprite.rs lines 167-186): `dimensions` is
the decoded image's (width, height); `captures` is the regex match result on
the filename. On a match, orientation is horizontal iff the parsed frame
height equals the image height, and the two `assert!`s check that frame size
times count covers the image along the strip axis; no match falls back to one
whole-image frame. -/
def parse_parameters (dimensions : Nat × Nat) (captures : Option (Nat × Nat × Nat)) :
    Except String FrameParameters :=
  match captures with
  | some (frame_width, frame_height, frame_count) =>
    let frame_layout :=
      if frame_height = dimensions.2 then SpriteLayout.HORIZONTAL else SpriteLayout.VERTICAL
    if frame_layout = SpriteLayout.VERTICAL ∨ frame_width * frame_count = dimensions.1 then
      if frame_layout = SpriteLayout.HORIZONTAL ∨ frame_height * frame_count = dimensions.2 then
        Except.ok ⟨frame_width, frame_height, frame_count, frame_layout⟩
      else
        Except.error "assertion failed: frame_height * frame_count == dimensions.2"
    else
      Except.error "assertion failed: frame_width * frame_count == dimensions.0"
  | none => Except.ok ⟨dimensions.1, dimensions.2, 1, SpriteLayout.HORIZONTAL⟩

/-- Embeds `get_frame_coordinates` (src/graphics/sprite.rs lines 214-228): top/left
crop origin of a frame; the `assert!(frame_id < frame_count)` is modelled by
returning `none`. -/
def get_frame_coordinates (image_dimensions : Nat × Nat) (fp : FrameParameters)
    (frame_id : Nat) : Option (Nat × Nat) :=
  let img_width := image_dimensions.1
  let img_height := image_dimensions.2
  if frame_id < fp.count then
    if fp.layout = SpriteLayout.HORIZONTAL then
      let spl := img_width / fp.width
      some ((frame_id % spl) * fp.width, (frame_id / spl) * fp.height)
    else
      let spl := img_height / fp.height
      some ((frame_id / spl) * fp.width, (frame_id % spl) * fp.height)
  else
    none

/-! ## Concrete fixtures for witnesses and examples -/

/-- White, as a concrete color value. -/
def cWhite : Color := ⟨1, 1, 1, 1⟩

/-- Red, as a concrete color value. -/
def cRed : Color := ⟨1, 0, 0, 0⟩

/-- A concrete layer value used in counterexamples and witnesses. -/
def testLayer : Layer :=
  { view_matrix := [], model_matrix := [], blend := 0, color := cWhite,
    gid := 0, lid := 0, vertex_data := [] }

/-- A concrete all-zero sprite (3 frames) used in witnesses. -/
def zeroSprite : Sprite :=
  { anchor_x := 0, anchor_y := 0, width := 0, height := 0, frames := 3,
    bucket_id := 0, texture_id := 7, u_max := 0, v_max := 0, loaded := true }

/-- A concrete rusttype-style font for layout examples, parameterized by a
uniform kerning value: ascent 8, descent -2, line gap 1 (all at scale 1),
glyph ids 1-4 for A-D and 9 for space, advance width 5; the space glyph has
no pixel bounding box, every other glyph's box spans 4 pixels of width from
its position. -/
def mkFont (kern : ℚ) : RTFont where
  vAscent := fun s => 8 * s
  vDescent := fun s => -2 * s
  vLineGap := fun s => 1 * s
  glyph := fun c =>
    if c = 'A' then some 1 else if c = 'B' then some 2 else if c = 'C' then some 3
    else if c = 'D' then some 4 else if c = ' ' then some 9 else none
  pairKerning := fun _ _ _ => kern
  advanceWidth := fun s _ => 5 * s
  pixelBB := fun s g x y =>
    if g = 9 then none
    else some ⟨truncQ x, truncQ (y - 8 * s), truncQ x + truncQ (4 * s), truncQ y⟩

/-- A font with constant metrics and no pixel bounding boxes, for witnesses. -/
def constFontNone : RTFont where
  vAscent := fun _ => 0
  vDescent := fun _ => 0
  vLineGap := fun _ => 0
  glyph := fun _ => some 1
  pairKerning := fun _ _ _ => 0
  advanceWidth := fun _ _ => 0
  pixelBB := fun _ _ _ _ => none

/-- Like `constFontNone` but every glyph has the pixel box [0,100]×[0,0]. -/
def constFontBB : RTFont :=
  { constFontNone with pixelBB := fun _ _ _ _ => some ⟨0, 0, 100, 0⟩ }

/-- The initial-like layout state used in witnesses. -/
def st0 : LayoutState := ⟨(0, 0), none, []⟩

/-! ## Theorems -/

/-- Claim C1, original form, refuted: a single call to `set_color` on a
concrete layer leaves the modification counter `lid` unchanged, so `lid` does
not strictly increase after `set_color()` (the code only bumps `lid` in
`sprite()` and `reset()`). -/
theorem setColor_does_not_bump_lid :
    ¬ testLayer.lid < (Layer.setColor testLayer cRed).lid := by
  simp [testLayer, Layer.setColor]

/-- Claim C1, amended: the modification counter `lid` strictly increases after
each single call to `sprite()` and `reset()`, and is unchanged by
`set_view_matrix()`, `set_blendmode()`, `set_color()` and by the read-only
accessors (which in this pure embedding merely return a field and cannot
mutate the layer). -/
theorem lid_mutation_discipline (l : Layer) (s : Sprite) (frame_id x y : Nat)
    (c : Color) (m : Mat4) (b : BlendMode) (rot sx sy : ℚ) :
    l.lid < (l.sprite s frame_id x y c rot sx sy).lid ∧
    l.lid < l.reset.lid ∧
    (l.setColor c).lid = l.lid ∧
    (l.setViewMatrix m).lid = l.lid ∧
    (l.setBlendmode b).lid = l.lid ∧
    (l.setModelMatrix m).lid = l.lid ∧
    l.getColor = l.color ∧ l.getViewMatrix = l.view_matrix ∧
    l.getBlendmode = l.blend := by
  refine ⟨?_, ?_, rfl, rfl, rfl, rfl, rfl, rfl, rfl⟩ <;>
    simp [Layer.sprite, Layer.reset]

/-- Claim C7: `Layer::sprite` appends exactly 4 vertices, in order top-left,
top-right, bottom-left, bottom-right, with anchor/scale-derived corner
offsets, UVs (0,0), (u_max,0), (0,v_max), (u_max,v_max), and all four sharing
position, rotation, bucket id, texture id and color. The hypothesis on the
frame count reflects that `u32 %` panics at 0 in the source. -/
theorem sprite_appends_quad (l : Layer) (s : Sprite) (frame_id x y : Nat)
    (c : Color) (rot sx sy : ℚ) (h : 0 < s.frames) :
    (l.sprite s frame_id x y c rot sx sy).vertex_data =
      l.vertex_data ++
      [ ⟨((x : ℚ), (y : ℚ)), (-(s.anchor_x * s.width) * sx, -(s.anchor_y * s.height) * sy),
          rot, s.bucket_id, s.textureId frame_id, c, (0, 0)⟩,
        ⟨((x : ℚ), (y : ℚ)), ((s.width - s.anchor_x * s.width) * sx, -(s.anchor_y * s.height) * sy),
          rot, s.bucket_id, s.textureId frame_id, c, (s.u_max, 0)⟩,
        ⟨((x : ℚ), (y : ℚ)), (-(s.anchor_x * s.width) * sx, (s.height - s.anchor_y * s.height) * sy),
          rot, s.bucket_id, s.textureId frame_id, c, (0, s.v_max)⟩,
        ⟨((x : ℚ), (y : ℚ)), ((s.width - s.anchor_x * s.width) * sx, (s.height - s.anchor_y * s.height) * sy),
          rot, s.bucket_id, s.textureId frame_id, c, (s.u_max, s.v_max)⟩ ] := by
  simp [Layer.sprite]

/-- Witness for C7 at a concrete layer, sprite and arguments. -/
theorem sprite_appends_quad_witness :
    (testLayer.sprite zeroSprite 0 0 0 cWhite 0 0 0).vertex_data =
      testLayer.vertex_data ++
      [ ⟨((0 : ℚ), (0 : ℚ)), (-(zeroSprite.anchor_x * zeroSprite.width) * 0, -(zeroSprite.anchor_y * zeroSprite.height) * 0),
          0, zeroSprite.bucket_id, zeroSprite.textureId 0, cWhite, (0, 0)⟩,
        ⟨((0 : ℚ), (0 : ℚ)), ((zeroSprite.width - zeroSprite.anchor_x * zeroSprite.width) * 0, -(zeroSprite.anchor_y * zeroSprite.height) * 0),
          0, zeroSprite.bucket_id, zeroSprite.textureId 0, cWhite, (zeroSprite.u_max, 0)⟩,
        ⟨((0 : ℚ), (0 : ℚ)), (-(zeroSprite.anchor_x * zeroSprite.width) * 0, (zeroSprite.height - zeroSprite.anchor_y * zeroSprite.height) * 0),
          0, zeroSprite.bucket_id, zeroSprite.textureId 0, cWhite, (0, zeroSprite.v_max)⟩,
        ⟨((0 : ℚ), (0 : ℚ)), ((zeroSprite.width - zeroSprite.anchor_x * zeroSprite.width) * 0, (zeroSprite.height - zeroSprite.anchor_y * zeroSprite.height) * 0),
          0, zeroSprite.bucket_id, zeroSprite.textureId 0, cWhite, (zeroSprite.u_max, zeroSprite.v_max)⟩ ] :=
  sprite_appends_quad testLayer zeroSprite 0 0 0 cWhite 0 0 0 (by decide)

/-- Claim C8: for a sprite with at least one frame, `texture_id(frame_id)`
equals the base texture id plus `frame_id mod frames`, and frame indices wrap:
the id at `frame_id + frames` equals the id at `frame_id`. -/
theorem textureId_wraps (s : Sprite) (frame_id : Nat) (h : 1 ≤ s.frames) :
    s.textureId frame_id = s.texture_id + frame_id % s.frames ∧
    s.textureId (frame_id + s.frames) = s.textureId frame_id := by
  refine ⟨rfl, ?_⟩
  simp [Sprite.textureId, Nat.add_mod_right]

/-- Witness for C8 at a concrete sprite (3 frames, base id 7) and frame 5. -/
theorem textureId_wraps_witness :
    zeroSprite.textureId 5 = zeroSprite.texture_id + 5 % zeroSprite.frames ∧
    zeroSprite.textureId (5 + zeroSprite.frames) = zeroSprite.textureId 5 :=
  textureId_wraps zeroSprite 5 (by decide)

/-- Claim C9: `with_size(s)` (resp. `with_color(c)`) returns a font whose size
(resp. color) is the given value while the font id, byte data, context handle
and the other of color/size are those of the original; the original value is
unchanged (the operations are pure clones in the source as well). -/
theorem with_size_with_color_clone (f : Font) (s : ℚ) (c : Color) :
    (f.withSize s).size = s ∧
    (f.withSize s).font_id = f.font_id ∧
    (f.withSize s).data = f.data ∧
    (f.withSize s).context = f.context ∧
    (f.withSize s).color = f.color ∧
    (f.withColor c).color = c ∧
    (f.withColor c).font_id = f.font_id ∧
    (f.withColor c).data = f.data ∧
    (f.withColor c).context = f.context ∧
    (f.withColor c).size = f.size :=
  ⟨rfl, rfl, rfl, rfl, rfl, rfl, rfl, rfl, rfl, rfl⟩

/-- Claim C2: if the dirty flag is set, `update(texture)` writes every queued
(rectangle, bytes) pair into the texture region given by the rectangle's min
corner and width/height (row-major bytes), then leaves the queue empty and the
dirty flag clear — so a second `update` changes nothing; if the dirty flag is
not set, `update` changes nothing at all. -/
theorem fontCache_update_spec (st : FontCacheState) (tex : Texture) :
    (st.dirty = true →
      (FontCache.update st tex).1 = ⟨[], false⟩ ∧
      (FontCache.update st tex).2 =
        st.queue.foldl (fun t p => writeRect t p.1 p.2) tex) ∧
    (st.dirty = false → FontCache.update st tex = (st, tex)) ∧
    (∀ t r d px py,
      r.minX ≤ px → px < r.minX + r.w → r.minY ≤ py → py < r.minY + r.h →
      writeRect t r d px py = d.getD ((py - r.minY) * r.w + (px - r.minX)) (t px py)) ∧
    (∀ t r d px py,
      ¬ (r.minX ≤ px ∧ px < r.minX + r.w ∧ r.minY ≤ py ∧ py < r.minY + r.h) →
      writeRect t r d px py = t px py) ∧
    FontCache.update (FontCache.update st tex).1 (FontCache.update st tex).2 =
      FontCache.update st tex := by
  refine ⟨fun hd => ?_, fun hd => ?_, fun t r d px py h1 h2 h3 h4 => ?_,
    fun t r d px py h => ?_, ?_⟩
  · simp [FontCache.update, hd]
  · simp [FontCache.update, hd]
  · simp [writeRect, h1, h2, h3, h4]
  · simp only [writeRect, if_neg h]
  · rcases hdc : st.dirty with _ | _ <;> simp [FontCache.update, hdc]

/-- A concrete one-entry pending queue, marked dirty. -/
def testCacheState : FontCacheState :=
  { queue := [(⟨1, 2, 3, 4⟩, [10, 11, 12, 13])], dirty := true }

/-- The all-zero texture. -/
def zeroTex : Texture := fun _ _ => 0

/-- Witness for C2: on a concrete dirty state, `update` empties the queue and
clears the dirty flag, and a byte lands inside its rectangle. -/
theorem fontCache_update_spec_witness :
    ((FontCache.update testCacheState zeroTex).1 = ⟨[], false⟩ ∧
      (FontCache.update testCacheState zeroTex).2 =
        testCacheState.queue.foldl (fun t p => writeRect t p.1 p.2) zeroTex) ∧
    writeRect zeroTex ⟨1, 2, 3, 4⟩ [10, 11, 12, 13] 2 3 =
      [10, 11, 12, 13].getD ((3 - 2) * (URect.w ⟨1, 2, 3, 4⟩) + (2 - 1)) (zeroTex 2 3) :=
  ⟨(fontCache_update_spec testCacheState zeroTex).1 rfl,
   (fontCache_update_spec testCacheState zeroTex).2.2.1 zeroTex ⟨1, 2, 3, 4⟩
     [10, 11, 12, 13] 2 3 (by decide) (by decide) (by decide) (by decide)⟩

/-- Claim C5: on a filename match, the strip orientation is horizontal exactly
when the parsed frame height equals the total image height; and the concrete
sheet `name_32x32x4.png` on a 128×32 image parses to 4 frames of 32×32 laid
out horizontally, frame `i` having crop origin `(i*32, 0)`. -/
theorem parse_orientation_spec (dims : Nat × Nat) (fw fh fc : Nat)
    (p : FrameParameters)
    (h : parse_parameters dims (some (fw, fh, fc)) = Except.ok p) :
    (p.layout = SpriteLayout.HORIZONTAL ↔ fh = dims.2) ∧
    (parse_parameters (128, 32) (some (32, 32, 4)) =
      Except.ok ⟨32, 32, 4, SpriteLayout.HORIZONTAL⟩ ∧
     ∀ i < 4, get_frame_coordinates (128, 32) ⟨32, 32, 4, SpriteLayout.HORIZONTAL⟩ i =
       some (i * 32, 0)) := by
  refine ⟨?_, rfl, by decide⟩
  have hp : p.layout =
      if fh = dims.2 then SpriteLayout.HORIZONTAL else SpriteLayout.VERTICAL := by
    by_cases hh : fh = dims.2 <;>
      by_cases hw : fw * fc = dims.1 <;>
      by_cases hv : fh * fc = dims.2 <;>
      simp [parse_parameters, hh, hw, hv] at h <;>
      simp [← h, hh]
  rw [hp]
  by_cases hh : fh = dims.2 <;> simp [hh]

/-- Witness for C5: the concrete 128×32 sheet with captures (32,32,4) is
parsed as a horizontal strip, and 32 equals the image height. -/
theorem parse_orientation_spec_witness :
    (FrameParameters.layout ⟨32, 32, 4, SpriteLayout.HORIZONTAL⟩ =
      SpriteLayout.HORIZONTAL ↔ 32 = (Prod.snd (128, 32) : Nat)) ∧
    (parse_parameters (128, 32) (some (32, 32, 4)) =
      Except.ok ⟨32, 32, 4, SpriteLayout.HORIZONTAL⟩ ∧
     ∀ i < 4, get_frame_coordinates (128, 32) ⟨32, 32, 4, SpriteLayout.HORIZONTAL⟩ i =
       some (i * 32, 0)) :=
  parse_orientation_spec (128, 32) 32 32 4 ⟨32, 32, 4, SpriteLayout.HORIZONTAL⟩ rfl

/-- Claim C6: with a filename match, loading fails (assertion) exactly when
the frame dimension times the frame count differs from the image dimension
along the strip axis (width for a horizontal strip, height for a vertical
one); without a match there is never an error and the result is a single
whole-image frame; the concrete sheet `name_32x32x5.png` on a 128×32 image
fails. -/
theorem parse_failfast_spec (dims : Nat × Nat) (fw fh fc : Nat) :
    ((∃ msg, parse_parameters dims (some (fw, fh, fc)) = Except.error msg) ↔
      ((fh = dims.2 ∧ fw * fc ≠ dims.1) ∨ (fh ≠ dims.2 ∧ fh * fc ≠ dims.2))) ∧
    parse_parameters dims none =
      Except.ok ⟨dims.1, dims.2, 1, SpriteLayout.HORIZONTAL⟩ ∧
    (∃ msg, parse_parameters (128, 32) (some (32, 32, 5)) = Except.error msg) := by
  refine ⟨?_, rfl,
    ⟨"assertion failed: frame_width * frame_count == dimensions.0", rfl⟩⟩
  by_cases hh : fh = dims.2 <;>
    by_cases hw : fw * fc = dims.1 <;>
    by_cases hv : fh * fc = dims.2 <;>
    simp [parse_parameters, hh, hw, hv]

/-- Witness for C6 at the concrete mismatched sheet (32,32,5) on 128×32:
the error exists and the mismatch condition holds. -/
theorem parse_failfast_spec_witness :
    ((∃ msg, parse_parameters (128, 32) (some (32, 32, 5)) = Except.error msg) ↔
      ((32 = (Prod.snd (128, 32) : Nat) ∧ 32 * 5 ≠ (Prod.fst (128, 32) : Nat)) ∨
       (32 ≠ (Prod.snd (128, 32) : Nat) ∧ 32 * 5 ≠ (Prod.snd (128, 32) : Nat)))) ∧
    parse_parameters (128, 32) none =
      Except.ok ⟨(Prod.fst (128, 32) : Nat), (Prod.snd (128, 32) : Nat), 1,
        SpriteLayout.HORIZONTAL⟩ ∧
    (∃ msg, parse_parameters (128, 32) (some (32, 32, 5)) = Except.error msg) :=
  parse_failfast_spec (128, 32) 32 32 5

/-- Evaluation lemma: ascent of the example font at scale 1. -/
theorem mkFont_vAscent (k : ℚ) : (mkFont k).vAscent 1 = 8 := by
  norm_num [mkFont]

/-- Evaluation lemma: line height of the example font at scale 1. -/
theorem mkFont_advH (k : ℚ) : advanceHeight (mkFont k) 1 = 11 := by
  norm_num [advanceHeight, mkFont]

/-- Evaluation lemma: kerning of the example font is its parameter. -/
theorem mkFont_kern (k : ℚ) (a b : Nat) : (mkFont k).pairKerning 1 a b = k := rfl

/-- Evaluation lemma: advance width of the example font at scale 1. -/
theorem mkFont_adv (k : ℚ) (g : Nat) : (mkFont k).advanceWidth 1 g = 5 := by
  norm_num [mkFont]

/-- Evaluation lemma: glyph id of A. -/
theorem mkFont_glyph_A (k : ℚ) : (mkFont k).glyph 'A' = some 1 := rfl

/-- Evaluation lemma: glyph id of B. -/
theorem mkFont_glyph_B (k : ℚ) : (mkFont k).glyph 'B' = some 2 := by
  simp [mkFont, show ('B' : Char) ≠ 'A' from by decide]

/-- Evaluation lemma: glyph id of C. -/
theorem mkFont_glyph_C (k : ℚ) : (mkFont k).glyph 'C' = some 3 := by
  simp [mkFont, show ('C' : Char) ≠ 'A' from by decide,
    show ('C' : Char) ≠ 'B' from by decide]

/-- Evaluation lemma: glyph id of D. -/
theorem mkFont_glyph_D (k : ℚ) : (mkFont k).glyph 'D' = some 4 := by
  simp [mkFont, show ('D' : Char) ≠ 'A' from by decide,
    show ('D' : Char) ≠ 'B' from by decide, show ('D' : Char) ≠ 'C' from by decide]

/-- Evaluation lemma: glyph id of space. -/
theorem mkFont_glyph_sp (k : ℚ) : (mkFont k).glyph ' ' = some 9 := by
  simp [mkFont, show (' ' : Char) ≠ 'A' from by decide,
    show (' ' : Char) ≠ 'B' from by decide, show (' ' : Char) ≠ 'C' from by decide,
    show (' ' : Char) ≠ 'D' from by decide]

/-- Evaluation lemma: pixel bounding box of a non-space glyph at scale 1. -/
theorem mkFont_bb (k : ℚ) (g : Nat) (x y : ℚ) (h : ¬ g = 9) :
    (mkFont k).pixelBB 1 g x y =
      some ⟨truncQ x, truncQ (y - 8 * 1), truncQ x + truncQ (4 * 1), truncQ y⟩ := by
  simp [mkFont, h]

/-- Evaluation lemma: the space glyph has no pixel bounding box. -/
theorem mkFont_bb_sp (k : ℚ) (x y : ℚ) : (mkFont k).pixelBB 1 9 x y = none := rfl

/-- Claim C3: in `layout_paragraph`, carriage-return resets caret.x to 0 and
advances caret.y by the line height (ascent − descent + line gap at the
requested scale) while leaving the output and kerning state as they were;
line-feed changes nothing; every other control character is skipped with no
glyph, caret or kerning change. On the example font (line height 11, ascent
8), "AB\rCD" with wrap width 0 places A,B at y=8 (line 1) and C,D at y=19 =
8 + line height (line 2) starting at x=0. -/
theorem layout_control_chars :
    (∀ font scale width st, layoutStep font scale width st '\r' =
      { st with caret := (0, st.caret.2 + advanceHeight font scale) }) ∧
    (∀ font scale width st, layoutStep font scale width st '\n' = st) ∧
    (∀ font scale width st c, isControlChar c = true → c ≠ '\r' →
      layoutStep font scale width st c = st) ∧
    layout_paragraph (mkFont 0) 1 0 ("AB\rCD".toList) =
      [⟨1, 0, 8⟩, ⟨2, 5, 8⟩, ⟨3, 0, 19⟩, ⟨4, 5, 19⟩] ∧
    (8 : ℚ) + advanceHeight (mkFont 0) 1 = 19 := by
  have hr : isControlChar '\r' = true := by decide
  have hn : isControlChar '\n' = true := by decide
  have hs : "AB\rCD".toList = ['A', 'B', '\r', 'C', 'D'] := by decide
  have hA : isControlChar 'A' = false := by decide
  have hB : isControlChar 'B' = false := by decide
  have hC : isControlChar 'C' = false := by decide
  have hD : isControlChar 'D' = false := by decide
  refine ⟨fun font scale width st => by simp [layoutStep, hr],
    fun font scale width st => by simp [layoutStep, hn],
    fun font scale width st c hc hcr => by simp [layoutStep, hc, hcr],
    ?_, by norm_num [advanceHeight, mkFont]⟩
  rw [hs]
  norm_num [layout_paragraph, layoutStep, kernedX,
    mkFont_vAscent, mkFont_advH, mkFont_kern, mkFont_adv,
    mkFont_glyph_A, mkFont_glyph_B, mkFont_glyph_C, mkFont_glyph_D,
    mkFont_bb, hA, hB, hC, hD, hr]

/-- Witness for C3: the bell control character (not carriage-return) leaves a
concrete layout state unchanged. -/
theorem layout_control_chars_witness :
    isControlChar (Char.ofNat 7) = true ∧ Char.ofNat 7 ≠ '\r' ∧
    layoutStep constFontNone 1 0 st0 (Char.ofNat 7) = st0 :=
  ⟨by decide, by decide,
   layout_control_chars.2.2.1 constFontNone 1 0 st0 (Char.ofNat 7)
     (by decide) (by decide)⟩

/-- Claim C4: when a printable character's positioned glyph has a pixel
bounding box whose right edge exceeds a positive wrap width, `layout_paragraph`
wraps: the caret moves to x=0 on the next line, the glyph is repositioned at
the new caret (x=0), and the kerning predecessor is cleared. On the example
font with kerning 1 and wrap width 12, "ABCD" wraps before C: B sits at
x = 5+1 = 6 (kerning applied), C restarts at x=0 on line 2, and D sits at
x = 5 (no kerning applied between the wrapped C and its successor computation
chain across the boundary; C itself is placed without the kerning offset that
had been added before the wrap). -/
theorem layout_wrap_spec :
    (∀ font scale width st c g bb, isControlChar c = false →
      RTFont.glyph font c = some g →
      RTFont.pixelBB font scale g (kernedX font scale st g) st.caret.2 = some bb →
      (0 : ℚ) < width → truncQ width < bb.maxX →
      layoutStep font scale width st c =
        { caret := (0 + font.advanceWidth scale g, st.caret.2 + advanceHeight font scale),
          lastGlyphId := none,
          result := st.result ++ [⟨g, 0, st.caret.2 + advanceHeight font scale⟩] }) ∧
    layout_paragraph (mkFont 1) 1 12 ("ABCD".toList) =
      [⟨1, 0, 8⟩, ⟨2, 6, 8⟩, ⟨3, 0, 19⟩, ⟨4, 5, 19⟩] := by
  have hA : isControlChar 'A' = false := by decide
  have hB : isControlChar 'B' = false := by decide
  have hC : isControlChar 'C' = false := by decide
  have hD : isControlChar 'D' = false := by decide
  have hs : "ABCD".toList = ['A', 'B', 'C', 'D'] := by decide
  have t0 : truncQ 0 = 0 := by decide
  have t4 : truncQ 4 = 4 := by decide
  have t5 : truncQ 5 = 5 := by decide
  have t6 : truncQ 6 = 6 := by decide
  have t12 : truncQ 12 = 12 := by decide
  refine ⟨fun font scale width st c g bb hc hg hbb hw hx => by
    simp [layoutStep, hc, hg, hbb, hw, hx], ?_⟩
  rw [hs]
  norm_num [layout_paragraph, layoutStep, kernedX,
    mkFont_vAscent, mkFont_advH, mkFont_kern, mkFont_adv,
    mkFont_glyph_A, mkFont_glyph_B, mkFont_glyph_C, mkFont_glyph_D,
    mkFont_bb, hA, hB, hC, hD, t0, t4, t5, t6, t12]

/-- Witness for C4: a concrete glyph whose box right edge (100) exceeds the
wrap width 12 is wrapped to x=0 on the next line with the kerning predecessor
cleared. -/
theorem layout_wrap_spec_witness :
    layoutStep constFontBB 1 12 st0 'A' =
      { caret := (0 + constFontBB.advanceWidth 1 1,
                  st0.caret.2 + advanceHeight constFontBB 1),
        lastGlyphId := none,
        result := st0.result ++ [⟨1, 0, st0.caret.2 + advanceHeight constFontBB 1⟩] } :=
  layout_wrap_spec.1 constFontBB 1 12 st0 'A' 1 ⟨0, 0, 100, 0⟩
    (by decide) rfl rfl (by decide) (by decide)

/-- Claim C10: a glyph with no pixel bounding box (e.g. a space) never
triggers a wrap: it is placed at the current (kerned) caret and advances
caret.x by its advance width, whatever the wrap width. On the example font,
three spaces with wrap width 3 stay on one line at x = 0, 5, 10 even though
the caret passes 3. -/
theorem layout_no_bb_no_wrap :
    (∀ font scale width st c g, isControlChar c = false →
      RTFont.glyph font c = some g →
      RTFont.pixelBB font scale g (kernedX font scale st g) st.caret.2 = none →
      layoutStep font scale width st c =
        { caret := (kernedX font scale st g + font.advanceWidth scale g, st.caret.2),
          lastGlyphId := some g,
          result := st.result ++ [⟨g, kernedX font scale st g, st.caret.2⟩] }) ∧
    layout_paragraph (mkFont 0) 1 3 ("   ".toList) =
      [⟨9, 0, 8⟩, ⟨9, 5, 8⟩, ⟨9, 10, 8⟩] := by
  have hsp : isControlChar ' ' = false := by decide
  have hs : "   ".toList = [' ', ' ', ' '] := by decide
  refine ⟨fun font scale width st c g hc hg hbb => by
    simp [layoutStep, hc, hg, hbb], ?_⟩
  rw [hs]
  norm_num [layout_paragraph, layoutStep, kernedX,
    mkFont_vAscent, mkFont_advH, mkFont_kern, mkFont_adv,
    mkFont_glyph_sp, mkFont_bb_sp, hsp]

/-- Witness for C10: with no pixel bounding box at all, a glyph at a concrete
state is placed at the caret without wrapping despite the tiny wrap width. -/
theorem layout_no_bb_no_wrap_witness :
    layoutStep constFontNone 1 1 st0 'A' =
      { caret := (kernedX constFontNone 1 st0 1 + constFontNone.advanceWidth 1 1,
                  st0.caret.2),
        lastGlyphId := some 1,
        result := st0.result ++ [⟨1, kernedX constFontNone 1 st0 1, st0.caret.2⟩] } :=
  layout_no_bb_no_wrap.1 constFontNone 1 1 st0 'A' 1 (by decide) rfl rfl

end Radiant
